import Mathlib

/-!
# Verification of the HR email-automation engine (`main.py`)

Shallow embedding of the event-detection and at-most-once delivery engine:
the Date Resolver (`parse_date`), the Delivery Engine (`send_email`), the three
event detectors (`check_birthday`, `check_work_anniversary`,
`check_marriage_anniversary`), and the Run Scheduler gate (`run`).

Modelling conventions:
* Python strings are modelled as Lean `String` at interfaces; the date parser
  works on `List Char` (`String.data`).
* `pandas` cell values are `Cell`: `na` (NaN / missing), `dt` (a structured
  datetime, truncated to its calendar date), or `strv` (text).
* The external SMTP transport — everything in the body of the retry loop's
  `try` block: message construction, connect, `starttls`, `login`,
  `send_message` — is abstracted as an oracle `transport : Nat → Bool` giving
  the outcome of each numbered attempt (`true` = the message is delivered,
  `false` = some exception is raised inside the block).  (The source text
  omits the closing parenthesis of the `server.login(...)` call — an evident
  transcription slip inside this abstracted transport block; the embedding
  reads the call as closed.)
* The template loader is the external collaborator `templates : String → String`.
* Logging is modelled as a list of structured `LogEntry` values, each
  carrying its severity level.
* `time.sleep(2)` is recorded by appending `2` to a list of sleep durations.
* Python `int` is `Int`; a Python function that can fall off the end returns
  `Option Bool` (`none` = Python `None`).
-/

/-- A calendar date, as Python `datetime.date`: year, month, day. -/
structure Date where
  year : Nat
  month : Nat
  day : Nat
deriving DecidableEq, Repr

/-- Gregorian leap-year rule used by `datetime`. -/
def isLeap (y : Nat) : Bool :=
  y % 4 == 0 && (y % 100 != 0 || y % 400 == 0)

/-- Number of days in a month, as validated by the `datetime` constructor. -/
def daysInMonth (y m : Nat) : Nat :=
  if m == 2 then (if isLeap y then 29 else 28)
  else if m == 4 || m == 6 || m == 9 || m == 11 then 30
  else 31

/-- The `datetime.date(y, m, d)` constructor succeeds exactly on these triples
(`MINYEAR = 1`, `MAXYEAR = 9999`). -/
def validDate (y m d : Nat) : Bool :=
  1 ≤ y && y ≤ 9999 && 1 ≤ m && m ≤ 12 && 1 ≤ d && d ≤ daysInMonth y m

/-- Value of a string of decimal digits (most significant first). -/
def digitsToNat (l : List Char) : Nat :=
  l.foldl (fun n c => n * 10 + (c.toNat - 48)) 0

/-- All characters are ASCII decimal digits. -/
def allDigits (l : List Char) : Bool :=
  l.all fun c => c.isDigit

/-- Split a character list at every occurrence of the separator, like
`re`-driven field separation in `strptime` formats with a literal
separator (and like `str.split` on a single character). -/
def splitSep (sep : Char) : List Char → List (List Char)
  | [] => [[]]
  | c :: cs =>
    if c == sep then [] :: splitSep sep cs
    else
      match splitSep sep cs with
      | [] => [[c]]
      | g :: gs => (c :: g) :: gs

/-- `strptime` directive `%d`: one or two digits denoting a day 1–31
(CPython regex `3[01]|[12]\d|0[1-9]|[1-9]`). -/
def matchDay (l : List Char) : Option Nat :=
  let v := digitsToNat l
  if allDigits l && 1 ≤ l.length && l.length ≤ 2 && 1 ≤ v && v ≤ 31 then some v
  else none

/-- `strptime` directive `%m`: one or two digits denoting a month 1–12
(CPython regex `1[0-2]|0[1-9]|[1-9]`). -/
def matchMonth (l : List Char) : Option Nat :=
  let v := digitsToNat l
  if allDigits l && 1 ≤ l.length && l.length ≤ 2 && 1 ≤ v && v ≤ 12 then some v
  else none

/-- `strptime` directive `%Y`: exactly four digits (CPython regex `\d\d\d\d`). -/
def matchYear (l : List Char) : Option Nat :=
  if allDigits l && l.length == 4 then some (digitsToNat l)
  else none

/-- Field order of a three-component date format. -/
inductive DateOrder where
  | dmy
  | ymd
deriving DecidableEq, Repr

/-- One `datetime.strptime(s, fmt).date()` call, for the four formats used by
`parse_date`: three fields separated by a literal one-character separator,
in the given order, validated by the `datetime` constructor. -/
def parseWith (sep : Char) (ord : DateOrder) (s : List Char) : Option Date :=
  match splitSep sep s with
  | [a, b, c] =>
    let fields :=
      match ord with
      | .dmy =>
        (matchDay a).bind fun d =>
          (matchMonth b).bind fun m =>
            (matchYear c).map fun y => (y, m, d)
      | .ymd =>
        (matchYear a).bind fun y =>
          (matchMonth b).bind fun m =>
            (matchDay c).map fun d => (y, m, d)
    match fields with
    | some (y, m, d) => if validDate y m d then some ⟨y, m, d⟩ else none
    | none => none
  | _ => none

/-- A `pandas` cell value as seen by `parse_date`. -/
inductive Cell where
  | na
  | dt (d : Date)
  | strv (s : String)
deriving DecidableEq, Repr

/-- `parse_date` (`main.py` lines 84–104): NaN → `None`; a datetime value is
truncated to its date; otherwise the text is tried against the formats
`'%d-%m-%Y'`, `'%d/%m/%Y'`, `'%Y-%m-%d'`, `'%d.%m.%Y'` in that order, first
success winning, and `None` is returned when all four fail.  (The
`except` clause's warning fires only on exceptions other than the
`ValueError`s caught inside the loop; the embedded total functions raise
none, so the unparseable-string path produces no log entry.) -/
def parse_date : Cell → Option Date
  | .na => none
  | .dt d => some d
  | .strv s =>
    (parseWith '-' .dmy s.data).orElse fun _ =>
      (parseWith '/' .dmy s.data).orElse fun _ =>
        (parseWith '-' .ymd s.data).orElse fun _ =>
          parseWith '.' .dmy s.data

/-- The decimal digit character for `n % 10`. -/
def digitChar (n : Nat) : Char := Char.ofNat (48 + n % 10)

/-- Two-digit zero-padded rendering of `n < 100`. -/
def pad2 (n : Nat) : List Char := [digitChar (n / 10), digitChar n]

/-- Four-digit zero-padded rendering of `n < 10000`. -/
def pad4 (n : Nat) : List Char :=
  [digitChar (n / 1000), digitChar (n / 100), digitChar (n / 10), digitChar n]

/-- Day-month-year rendering of a date with the given separator
(zero-padded, four-digit year). -/
def fmtDMY (sep : Char) (dt : Date) : List Char :=
  pad2 dt.day ++ sep :: (pad2 dt.month ++ sep :: pad4 dt.year)

/-- Year-month-day rendering with hyphens (ISO style). -/
def fmtYMD (dt : Date) : List Char :=
  pad4 dt.year ++ '-' :: (pad2 dt.month ++ '-' :: pad2 dt.day)

/-- Severity of a log entry. -/
inductive LogLevel where
  | info
  | warning
  | error
deriving DecidableEq, Repr

/-- Structured log entries, one constructor per `self.logger.*` call site of
the engine (each carries the data interpolated into the source's f-string). -/
inductive LogEntry where
  | duplicatePrevented (recipient eventType : String)
  | attemptFailed (recipient : String) (attempt : Nat) (maxRetries : Int)
  | sendSuccess (recipient subject : String)
  | sendExhausted (recipient : String) (maxRetries : Int)
  | skippedNoEmail (eventType name : String)
  | birthdayDetected (name : String) (age : Int)
  | workAnniversaryDetected (name : String) (years : Int)
  | marriageAnniversaryDetected (name : String) (years : Int)
  | notScheduledTime (curH curM tgtH tgtM : Nat)
  | scheduledTimeReached (curH curM : Nat)
deriving DecidableEq, Repr

/-- Severity used at each call site. -/
def LogEntry.level : LogEntry → LogLevel
  | .duplicatePrevented _ _ => .warning
  | .attemptFailed _ _ _ => .warning
  | .sendSuccess _ _ => .info
  | .sendExhausted _ _ => .error
  | .skippedNoEmail _ _ => .warning
  | .birthdayDetected _ _ => .info
  | .workAnniversaryDetected _ _ => .info
  | .marriageAnniversaryDetected _ _ => .info
  | .notScheduledTime _ _ _ _ => .info
  | .scheduledTimeReached _ _ => .info

/-- Is this entry the detection (event-match) log line of one of the three
detectors? -/
def LogEntry.isDetection : LogEntry → Bool
  | .birthdayDetected _ _ => true
  | .workAnniversaryDetected _ _ => true
  | .marriageAnniversaryDetected _ _ => true
  | _ => false

/-- `pat` is a prefix of the second list. -/
def charsPrefix : List Char → List Char → Bool
  | [], _ => true
  | _ :: _, [] => false
  | p :: ps, c :: cs => p == c && charsPrefix ps cs

/-- `pat` occurs as a contiguous run inside the list. -/
def charsContains (pat : List Char) : List Char → Bool
  | [] => charsPrefix pat []
  | c :: cs => charsPrefix pat (c :: cs) || charsContains pat cs

/-- `pat` occurs as a substring of `s`. -/
def strContains (s pat : String) : Bool :=
  charsContains pat.data s.data

/-- An idempotency key: `(recipient_email, event_type)`. -/
abbrev DeliveryKey := String × String

/-- Observable outcome of the retry loop of `send_email`. -/
structure LoopOut where
  success : Bool
  attempts : Nat
  sleeps : List Nat
  logs : List LogEntry
deriving DecidableEq, Repr

/-- The `for attempt in range(1, max_retries + 1)` loop of `send_email`
(`main.py` lines 124–165), entered at attempt number `attempt` with
`remaining ≥ 1` iterations left (callers maintain
`attempt + remaining = max_retries + 1`).  The whole `try` body is the
transport oracle: `transport attempt = true` means the message went out,
`false` that an exception was raised.  On failure the code compares
`attempt < max_retries` to decide between a 2-second sleep plus retry and
the error log plus `return False`. -/
def sendLoop (transport : Nat → Bool) (recipient subject : String)
    (maxRetries : Int) : Nat → Nat → LoopOut
  | _, 0 => ⟨false, 0, [], []⟩
  | attempt, r + 1 =>
    if transport attempt then
      ⟨true, 1, [], [.sendSuccess recipient subject]⟩
    else
      let warn := LogEntry.attemptFailed recipient attempt maxRetries
      if (attempt : Int) < maxRetries then
        let rest := sendLoop transport recipient subject maxRetries (attempt + 1) r
        ⟨rest.success, 1 + rest.attempts, 2 :: rest.sleeps, warn :: rest.logs⟩
      else
        ⟨false, 1, [], [warn, .sendExhausted recipient maxRetries]⟩

/-- Observable result of one `send_email` call: the Python return value
(`some true` = `True`, `some false` = `False`, `none` = falling off the end,
i.e. `None`), the registry afterwards, the number of transport attempts, the
`time.sleep` durations performed, and the log entries written. -/
structure SendResult where
  result : Option Bool
  registry : List DeliveryKey
  transportAttempts : Nat
  sleeps : List Nat
  logs : List LogEntry
deriving DecidableEq, Repr

/-- `send_email` (`main.py` lines 117–165).  Step 1: if
`(recipient_email, event_type)` is already in `self.email_sent_today`, log the
duplicate warning and return `False` with no attempt.  Step 2: run the retry
loop; `range(1, max_retries + 1)` is empty when `max_retries ≤ 0`, in which
case execution falls off the end of the function (`None`).  On transport
success the loop adds the key to the registry, logs, and returns `True`. -/
def send_email (transport : Nat → Bool) (recipient subject eventType : String)
    (registry : List DeliveryKey) (maxRetries : Int) : SendResult :=
  let key : DeliveryKey := (recipient, eventType)
  if key ∈ registry then
    { result := some false, registry := registry, transportAttempts := 0,
      sleeps := [], logs := [.duplicatePrevented recipient eventType] }
  else if maxRetries ≤ 0 then
    { result := none, registry := registry, transportAttempts := 0,
      sleeps := [], logs := [] }
  else
    let out := sendLoop transport recipient subject maxRetries 1 maxRetries.toNat
    { result := some out.success,
      registry := if out.success then registry ++ [key] else registry,
      transportAttempts := out.attempts, sleeps := out.sleeps,
      logs := out.logs }

/-- One spreadsheet row as the detectors read it.  `employeeName` is
`row.get('Employee Name', 'Employee')` (`none` = missing column);
`email` is `row.get('Email')` with `none` standing for a missing or NaN
cell; the three date fields are raw cells fed to `parse_date`. -/
structure Row where
  employeeName : Option String
  email : Option String
  dateOfBirth : Cell
  dateOfJoining : Cell
  marriageAnniversary : Cell
deriving DecidableEq, Repr

/-- The detectors' guard `if not email or pd.isna(email)`: a missing column
(`None`), a NaN cell, or the empty (falsy) string. -/
def emailMissing : Option String → Bool
  | none => true
  | some e => e == ""

/-- Python truthiness of a detector's return value (`None` and `False` are
falsy). -/
def truthy : Option Bool → Bool
  | none => false
  | some b => b

/-- Subject f-string of `check_birthday`. -/
def birthday_subject (name : String) : String :=
  "🎉 Happy Birthday, " ++ name ++ "!"

/-- Subject f-string of `check_work_anniversary`. -/
def work_anniversary_subject (years : Int) (name : String) : String :=
  "🌟 Happy " ++ toString years ++ " Year Work Anniversary, " ++ name ++ "!"

/-- Subject f-string of `check_marriage_anniversary`. -/
def marriage_anniversary_subject (years : Int) (name : String) : String :=
  "💕 Happy " ++ toString years ++ " Year Marriage Anniversary, " ++ name ++ "!"

/-- Observable result of one `check_*` call: the Python return value
(the detectors forward `send_email`'s return, so `none` is reachable there
too), the registry afterwards, transport attempts, sleeps, and the log
entries written by the check and its delivery. -/
structure CheckResult where
  result : Option Bool
  registry : List DeliveryKey
  transportAttempts : Nat
  sleeps : List Nat
  logs : List LogEntry
deriving DecidableEq, Repr

/-- A `CheckResult` with no effects beyond the returned value. -/
def noEffects (registry : List DeliveryKey) (logs : List LogEntry) : CheckResult :=
  ⟨some false, registry, 0, [], logs⟩

/-- Wrap a delivery's outcome, prefixing the detection log entry. -/
def afterSend (detect : LogEntry) (s : SendResult) : CheckResult :=
  ⟨s.result, s.registry, s.transportAttempts, s.sleeps, detect :: s.logs⟩

/-- `check_birthday` (`main.py` lines 167–192): resolve `Date of Birth`;
no date or no day+month match → `False`.  On a match, a missing/blank email
logs the skip warning and returns `False`; otherwise
`age = today.year - dob.year`, the detection is logged, the
`birthday.html` template is personalised by literal `str.replace`, and the
mail is handed to `send_email` with event type `"birthday"` (the call site
uses the default `max_retries = 3`). -/
def check_birthday (today : Date) (templates : String → String)
    (transport : Nat → Bool) (registry : List DeliveryKey) (row : Row) :
    CheckResult :=
  match parse_date row.dateOfBirth with
  | none => noEffects registry []
  | some dob =>
    if today.day = dob.day ∧ today.month = dob.month then
      let name := row.employeeName.getD "Employee"
      if emailMissing row.email then
        noEffects registry [.skippedNoEmail "birthday" name]
      else
        let email := row.email.getD ""
        let age : Int := (today.year : Int) - (dob.year : Int)
        let template := templates "birthday.html"
        let _html := (template.replace "{{name}}" name).replace "{{age}}"
          (toString age)
        afterSend (.birthdayDetected name age)
          (send_email transport email (birthday_subject name) "birthday"
            registry 3)
    else noEffects registry []

/-- `check_work_anniversary` (`main.py` lines 194–222): the same rule against
`Date of Joining`, with `years_completed = today.year - doj.year`, the
`work_anniversary.html` template and event type `"work_anniversary"`. -/
def check_work_anniversary (today : Date) (templates : String → String)
    (transport : Nat → Bool) (registry : List DeliveryKey) (row : Row) :
    CheckResult :=
  match parse_date row.dateOfJoining with
  | none => noEffects registry []
  | some doj =>
    if today.month = doj.month ∧ today.day = doj.day then
      let years : Int := (today.year : Int) - (doj.year : Int)
      let name := row.employeeName.getD "Employee"
      if emailMissing row.email then
        noEffects registry [.skippedNoEmail "work_anniversary" name]
      else
        let email := row.email.getD ""
        let template := templates "work_anniversary.html"
        let _html := (template.replace "{{name}}" name).replace "{{years}}"
          (toString years)
        afterSend (.workAnniversaryDetected name years)
          (send_email transport email (work_anniversary_subject years name)
            "work_anniversary" registry 3)
    else noEffects registry []

/-- `check_marriage_anniversary` (`main.py` lines 224–252): the same rule
against `Marriage Anniversary`, with the `marriage_anniversary.html`
template and event type `"marriage_anniversary"`. -/
def check_marriage_anniversary (today : Date) (templates : String → String)
    (transport : Nat → Bool) (registry : List DeliveryKey) (row : Row) :
    CheckResult :=
  match parse_date row.marriageAnniversary with
  | none => noEffects registry []
  | some md =>
    if today.day = md.day ∧ today.month = md.month then
      let years : Int := (today.year : Int) - (md.year : Int)
      let name := row.employeeName.getD "Employee"
      if emailMissing row.email then
        noEffects registry [.skippedNoEmail "marriage_anniversary" name]
      else
        let email := row.email.getD ""
        let template := templates "marriage_anniversary.html"
        let _html := (template.replace "{{name}}" name).replace "{{years}}"
          (toString years)
        afterSend (.marriageAnniversaryDetected name years)
          (send_email transport email
            (marriage_anniversary_subject years name) "marriage_anniversary"
            registry 3)
    else noEffects registry []

/-- The hard-coded target of the run gate (`self.target_hour`,
`self.target_minute` in `__init__`). -/
def target_hour : Nat := 16

/-- See `target_hour`. -/
def target_minute : Nat := 49

/-- Observable outcome of one `run()` invocation: whether the employee data
source was read (`load_employee_data` is reached only after the gate), the
per-kind counters when the pass happened, the final registry, and the gate
log entries. -/
structure RunOutcome where
  dataSourceTouched : Bool
  counters : Option (Nat × Nat × Nat)
  registry : List DeliveryKey
  logs : List LogEntry
deriving Repr

/-- The per-row body of the `run()` loop: the three checks in sequence,
threading the registry, each counter bumped when its check returns a truthy
value.  `transports k` is the transport oracle used for event type `k` of
this row. -/
def processRow (today : Date) (templates : String → String)
    (transports : String → Nat → Bool)
    (acc : List DeliveryKey × Nat × Nat × Nat) (row : Row) :
    List DeliveryKey × Nat × Nat × Nat :=
  let (reg, b, w, m) := acc
  let rB := check_birthday today templates (transports "birthday") reg row
  let rW := check_work_anniversary today templates
    (transports "work_anniversary") rB.registry row
  let rM := check_marriage_anniversary today templates
    (transports "marriage_anniversary") rW.registry row
  (rM.registry,
    b + (if truthy rB.result then 1 else 0),
    w + (if truthy rW.result then 1 else 0),
    m + (if truthy rM.result then 1 else 0))

/-- `run` (`main.py` lines 254–296).  The gate: unless the current hour and
minute both equal the target, the not-scheduled message is logged and the
method returns without reading the data source.  Otherwise the rows are
loaded and processed once, accumulating per-kind counters from an empty
registry (`transports i k` is the oracle for row index `i`, event kind `k`). -/
def run (targetH targetM curH curM : Nat) (today : Date)
    (templates : String → String) (transports : Nat → String → Nat → Bool)
    (rows : List Row) : RunOutcome :=
  if curH ≠ targetH ∨ curM ≠ targetM then
    { dataSourceTouched := false, counters := none, registry := [],
      logs := [.notScheduledTime curH curM targetH targetM] }
  else
    let final := (rows.enum).foldl
      (fun acc ir => processRow today templates (transports ir.1) acc ir.2)
      ([], 0, 0, 0)
    { dataSourceTouched := true,
      counters := some (final.2.1, final.2.2.1, final.2.2.2),
      registry := final.1,
      logs := [.scheduledTimeReached curH curM] }

/-- One `send_email` invocation's inputs, for reasoning about a whole run's
sequence of deliveries. -/
structure CallSpec where
  transport : Nat → Bool
  recipient : String
  subject : String
  eventType : String
  maxRetries : Int

/-- The idempotency key of a call. -/
def CallSpec.key (c : CallSpec) : DeliveryKey := (c.recipient, c.eventType)

/-- Registry after a sequence of `send_email` calls starting from `reg`. -/
def runRegistry (calls : List CallSpec) (reg : List DeliveryKey) :
    List DeliveryKey :=
  calls.foldl
    (fun r c =>
      (send_email c.transport c.recipient c.subject c.eventType r
        c.maxRetries).registry)
    reg

/-! ## Helper lemmas: digits, padding, splitting -/

lemma digitChar_isDigit (n : Nat) : (digitChar n).isDigit = true := by
  unfold digitChar
  have h : n % 10 = 0 ∨ n % 10 = 1 ∨ n % 10 = 2 ∨ n % 10 = 3 ∨ n % 10 = 4 ∨
      n % 10 = 5 ∨ n % 10 = 6 ∨ n % 10 = 7 ∨ n % 10 = 8 ∨ n % 10 = 9 := by
    omega
  rcases h with h | h | h | h | h | h | h | h | h | h <;> rw [h] <;> decide

lemma digitChar_toNat (n : Nat) : (digitChar n).toNat = 48 + n % 10 := by
  unfold digitChar
  have h : n % 10 = 0 ∨ n % 10 = 1 ∨ n % 10 = 2 ∨ n % 10 = 3 ∨ n % 10 = 4 ∨
      n % 10 = 5 ∨ n % 10 = 6 ∨ n % 10 = 7 ∨ n % 10 = 8 ∨ n % 10 = 9 := by
    omega
  rcases h with h | h | h | h | h | h | h | h | h | h <;> rw [h] <;> decide

lemma digitChar_ne (n : Nat) (c : Char) (hc : c.isDigit = false) :
    digitChar n ≠ c := by
  intro h
  rw [← h] at hc
  rw [digitChar_isDigit n] at hc
  exact Bool.noConfusion hc

lemma mem_pad2 (n : Nat) (c : Char) (h : c ∈ pad2 n) : c.isDigit = true := by
  rcases h with _ | ⟨_, h⟩
  · exact digitChar_isDigit _
  · rcases h with _ | ⟨_, h⟩
    · exact digitChar_isDigit _
    · cases h

lemma mem_pad4 (n : Nat) (c : Char) (h : c ∈ pad4 n) : c.isDigit = true := by
  simp only [pad4, List.mem_cons, List.not_mem_nil, or_false] at h
  rcases h with h | h | h | h <;> rw [h] <;> exact digitChar_isDigit _

lemma splitSep_eq_single (sep : Char) (l : List Char)
    (h : ∀ c ∈ l, c ≠ sep) : splitSep sep l = [l] := by
  induction l with
  | nil => rfl
  | cons c cs ih =>
    have hc : (c == sep) = false := by
      simp only [beq_eq_false_iff_ne, ne_eq]
      exact h c (List.mem_cons_self c cs)
    have hcs : splitSep sep cs = [cs] :=
      ih fun x hx => h x (List.mem_cons_of_mem _ hx)
    simp [splitSep, hc, hcs]

lemma splitSep_append (sep : Char) (a rest : List Char)
    (h : ∀ c ∈ a, c ≠ sep) :
    splitSep sep (a ++ sep :: rest) = a :: splitSep sep rest := by
  induction a with
  | nil => simp [splitSep]
  | cons c cs ih =>
    have hc : (c == sep) = false := by
      simp only [beq_eq_false_iff_ne, ne_eq]
      exact h c (List.mem_cons_self c cs)
    have hcs := ih fun x hx => h x (List.mem_cons_of_mem _ hx)
    simp [splitSep, hc, hcs]

lemma digitsToNat_pad2 (n : Nat) (h : n < 100) : digitsToNat (pad2 n) = n := by
  simp only [digitsToNat, pad2, List.foldl, digitChar_toNat]
  omega

lemma digitsToNat_pad4 (n : Nat) (h : n < 10000) :
    digitsToNat (pad4 n) = n := by
  simp only [digitsToNat, pad4, List.foldl, digitChar_toNat]
  omega

lemma allDigits_pad2 (n : Nat) : allDigits (pad2 n) = true := by
  simp only [allDigits, pad2, List.all_cons, List.all_nil, Bool.and_true,
    digitChar_isDigit, Bool.and_self]

lemma allDigits_pad4 (n : Nat) : allDigits (pad4 n) = true := by
  simp only [allDigits, pad4, List.all_cons, List.all_nil, Bool.and_true,
    digitChar_isDigit, Bool.and_self]

lemma matchDay_pad2 (d : Nat) (h1 : 1 ≤ d) (h2 : d ≤ 31) :
    matchDay (pad2 d) = some d := by
  have hv := digitsToNat_pad2 d (by omega)
  have hl : (pad2 d).length = 2 := rfl
  simp [matchDay, hv, hl, allDigits_pad2, h1, h2]

lemma matchMonth_pad2 (m : Nat) (h1 : 1 ≤ m) (h2 : m ≤ 12) :
    matchMonth (pad2 m) = some m := by
  have hv := digitsToNat_pad2 m (by omega)
  have hl : (pad2 m).length = 2 := rfl
  simp [matchMonth, hv, hl, allDigits_pad2, h1, h2]

lemma matchYear_pad4 (y : Nat) (h : y < 10000) :
    matchYear (pad4 y) = some y := by
  have hv := digitsToNat_pad4 y h
  have hl : (pad4 y).length = 4 := rfl
  simp [matchYear, hv, hl, allDigits_pad4]

lemma matchDay_pad4 (y : Nat) : matchDay (pad4 y) = none := by
  simp [matchDay, pad4]

lemma daysInMonth_le (y m : Nat) : daysInMonth y m ≤ 31 := by
  unfold daysInMonth
  split
  · split <;> omega
  · split <;> omega

/-! ## Helper lemmas: `parseWith` on rendered dates -/

lemma parseWith_of_noSep (sep : Char) (ord : DateOrder) (s : List Char)
    (h : ∀ c ∈ s, c ≠ sep) : parseWith sep ord s = none := by
  unfold parseWith
  rw [splitSep_eq_single sep s h]

lemma mem_fmtDMY (sep : Char) (dt : Date) (c : Char) (h : c ∈ fmtDMY sep dt) :
    c = sep ∨ c.isDigit = true := by
  unfold fmtDMY at h
  rcases List.mem_append.1 h with h1 | h1
  · exact Or.inr (mem_pad2 _ _ h1)
  · rcases List.mem_cons.1 h1 with h2 | h2
    · exact Or.inl h2
    · rcases List.mem_append.1 h2 with h3 | h3
      · exact Or.inr (mem_pad2 _ _ h3)
      · rcases List.mem_cons.1 h3 with h4 | h4
        · exact Or.inl h4
        · exact Or.inr (mem_pad4 _ _ h4)

lemma mem_fmtYMD (dt : Date) (c : Char) (h : c ∈ fmtYMD dt) :
    c = '-' ∨ c.isDigit = true := by
  unfold fmtYMD at h
  rcases List.mem_append.1 h with h1 | h1
  · exact Or.inr (mem_pad4 _ _ h1)
  · rcases List.mem_cons.1 h1 with h2 | h2
    · exact Or.inl h2
    · rcases List.mem_append.1 h2 with h3 | h3
      · exact Or.inr (mem_pad2 _ _ h3)
      · rcases List.mem_cons.1 h3 with h4 | h4
        · exact Or.inl h4
        · exact Or.inr (mem_pad2 _ _ h4)

lemma noSep_fmtDMY (sep sep' : Char) (dt : Date) (hd : sep'.isDigit = false)
    (hne : sep ≠ sep') : ∀ c ∈ fmtDMY sep dt, c ≠ sep' := by
  intro c hc hcc
  rcases mem_fmtDMY sep dt c hc with h | h
  · rw [hcc] at h
    exact hne h.symm
  · rw [hcc] at h
    rw [hd] at h
    exact Bool.noConfusion h

lemma noSep_fmtYMD (sep' : Char) (dt : Date) (hd : sep'.isDigit = false)
    (hne : '-' ≠ sep') : ∀ c ∈ fmtYMD dt, c ≠ sep' := by
  intro c hc hcc
  rcases mem_fmtYMD dt c hc with h | h
  · rw [hcc] at h
    exact hne h.symm
  · rw [hcc] at h
    rw [hd] at h
    exact Bool.noConfusion h

lemma validDate_bounds (y m d : Nat) (hv : validDate y m d = true) :
    1 ≤ y ∧ y ≤ 9999 ∧ 1 ≤ m ∧ m ≤ 12 ∧ 1 ≤ d ∧ d ≤ 31 := by
  have h31 := daysInMonth_le y m
  simp only [validDate, Bool.and_eq_true, decide_eq_true_eq] at hv
  omega

lemma noSep_pad2 (sep : Char) (n : Nat) (hs : sep.isDigit = false) :
    ∀ c ∈ pad2 n, c ≠ sep := by
  intro c hc hcc
  have h := mem_pad2 _ _ hc
  rw [hcc, hs] at h
  exact Bool.noConfusion h

lemma noSep_pad4 (sep : Char) (n : Nat) (hs : sep.isDigit = false) :
    ∀ c ∈ pad4 n, c ≠ sep := by
  intro c hc hcc
  have h := mem_pad4 _ _ hc
  rw [hcc, hs] at h
  exact Bool.noConfusion h

lemma splitSep_fmtDMY (sep : Char) (dt : Date) (hs : sep.isDigit = false) :
    splitSep sep (fmtDMY sep dt) =
      [pad2 dt.day, pad2 dt.month, pad4 dt.year] := by
  unfold fmtDMY
  rw [splitSep_append sep _ _ (noSep_pad2 sep _ hs)]
  rw [splitSep_append sep _ _ (noSep_pad2 sep _ hs)]
  rw [splitSep_eq_single sep _ (noSep_pad4 sep _ hs)]

lemma splitSep_fmtYMD (dt : Date) :
    splitSep '-' (fmtYMD dt) = [pad4 dt.year, pad2 dt.month, pad2 dt.day] := by
  unfold fmtYMD
  rw [splitSep_append '-' _ _ (noSep_pad4 '-' _ (by decide))]
  rw [splitSep_append '-' _ _ (noSep_pad2 '-' _ (by decide))]
  rw [splitSep_eq_single '-' _ (noSep_pad2 '-' _ (by decide))]

lemma parseWith_fmtDMY (sep : Char) (hs : sep.isDigit = false) (y m d : Nat)
    (hv : validDate y m d = true) :
    parseWith sep .dmy (fmtDMY sep ⟨y, m, d⟩) = some ⟨y, m, d⟩ := by
  obtain ⟨hy1, hy2, hm1, hm2, hd1, hd2⟩ := validDate_bounds y m d hv
  unfold parseWith
  rw [splitSep_fmtDMY sep ⟨y, m, d⟩ hs]
  simp [matchDay_pad2 d hd1 hd2, matchMonth_pad2 m hm1 hm2,
    matchYear_pad4 y (by omega), hv]

lemma parseWith_fmtYMD (y m d : Nat) (hv : validDate y m d = true) :
    parseWith '-' .ymd (fmtYMD ⟨y, m, d⟩) = some ⟨y, m, d⟩ := by
  obtain ⟨hy1, hy2, hm1, hm2, hd1, hd2⟩ := validDate_bounds y m d hv
  unfold parseWith
  rw [splitSep_fmtYMD ⟨y, m, d⟩]
  simp [matchDay_pad2 d hd1 hd2, matchMonth_pad2 m hm1 hm2,
    matchYear_pad4 y (by omega), hv]

lemma parseWith_dmy_fmtYMD (dt : Date) :
    parseWith '-' .dmy (fmtYMD dt) = none := by
  unfold parseWith
  rw [splitSep_fmtYMD dt]
  simp [matchDay_pad4]

/-! ## Helper lemmas: the retry loop -/

lemma sendLoop_firstSuccess (t : Nat → Bool) (rec subj : String) (mR : Int)
    (N : Nat) (hNm : (N : Int) ≤ mR)
    (hf : ∀ i, 1 ≤ i → i < N → t i = false) (hs : t N = true) :
    ∀ (r a : Nat), 1 ≤ a → a ≤ N → (a : Int) + (r : Int) = mR + 1 →
      sendLoop t rec subj mR a r =
        ⟨true, N - a + 1, List.replicate (N - a) 2,
          (List.range' a (N - a)).map
              (fun i => .attemptFailed rec i mR) ++
            [.sendSuccess rec subj]⟩ := by
  intro r
  induction r with
  | zero =>
    intro a ha1 haN har
    exfalso
    omega
  | succ r ih =>
    intro a ha1 haN har
    rcases Nat.lt_or_ge a N with haltN | hageN
    · have hta : t a = false := hf a ha1 haltN
      have halt : (a : Int) < mR := by omega
      have hsub : N - a = (N - (a + 1)) + 1 := by omega
      simp only [sendLoop, hta, Bool.false_eq_true, if_false, if_pos halt,
        ih (a + 1) (by omega) (by omega) (by push_cast; push_cast at har; omega)]
      simp only [LoopOut.mk.injEq, hsub, List.replicate_succ,
        List.range'_succ, List.map_cons, List.cons_append]
      exact ⟨trivial, by omega, trivial, trivial⟩
    · have haeq : a = N := by omega
      subst haeq
      simp [sendLoop, hs]

lemma sendLoop_allFail (t : Nat → Bool) (rec subj : String) (mR : Int)
    (hf : ∀ i : Nat, 1 ≤ i → (i : Int) ≤ mR → t i = false) :
    ∀ (r a : Nat), 1 ≤ a → 1 ≤ r → (a : Int) + (r : Int) = mR + 1 →
      sendLoop t rec subj mR a r =
        ⟨false, r, List.replicate (r - 1) 2,
          (List.range' a r).map (fun i => .attemptFailed rec i mR) ++
            [.sendExhausted rec mR]⟩ := by
  intro r
  induction r with
  | zero =>
    intro a ha1 hr1 har
    exfalso
    omega
  | succ r ih =>
    intro a ha1 hr1 har
    have hta : t a = false := hf a ha1 (by omega)
    rcases Nat.eq_zero_or_pos r with hr0 | hrpos
    · subst hr0
      have hnlt : ¬ ((a : Int) < mR) := by omega
      simp [sendLoop, hta, hnlt, List.range'_succ]
    · have halt : (a : Int) < mR := by omega
      simp only [sendLoop, hta, Bool.false_eq_true, if_false, if_pos halt,
        ih (a + 1) (by omega) hrpos (by push_cast; push_cast at har; omega)]
      simp only [LoopOut.mk.injEq, Nat.add_sub_cancel, List.range'_succ,
        List.map_cons, List.cons_append]
      refine ⟨trivial, by omega, ?_, trivial⟩
      conv_rhs => rw [show r = (r - 1) + 1 by omega]
      rw [List.replicate_succ]

lemma sendLoop_success_iff (t : Nat → Bool) (rec subj : String) (mR : Int) :
    ∀ (r a : Nat),
      ((sendLoop t rec subj mR a r).success = true ↔
        1 ≤ (sendLoop t rec subj mR a r).attempts ∧
          t (a + (sendLoop t rec subj mR a r).attempts - 1) = true) := by
  intro r
  induction r with
  | zero =>
    intro a
    simp [sendLoop]
  | succ r ih =>
    intro a
    cases hta : t a with
    | true => simp [sendLoop, hta]
    | false =>
      by_cases halt : (a : Int) < mR
      · simp only [sendLoop, hta, Bool.false_eq_true, if_false, if_pos halt]
        have hih := ih (a + 1)
        rcases Nat.eq_zero_or_pos
            (sendLoop t rec subj mR (a + 1) r).attempts with h0 | hpos
        · have hsf : (sendLoop t rec subj mR (a + 1) r).success = false := by
            cases hch : (sendLoop t rec subj mR (a + 1) r).success with
            | false => rfl
            | true => exact absurd (hih.1 hch).1 (by omega)
          simp only [hsf, h0]
          simp [hta]
        · have hidx : a + (1 + (sendLoop t rec subj mR (a + 1) r).attempts) - 1
              = a + 1 + (sendLoop t rec subj mR (a + 1) r).attempts - 1 := by
            omega
          simp only [hidx]
          rw [hih]
          constructor
          · intro ⟨h1, h2⟩
            exact ⟨by omega, h2⟩
          · intro ⟨h1, h2⟩
            exact ⟨by omega, h2⟩
      · simp only [sendLoop, hta, Bool.false_eq_true, if_false,
          if_neg halt]
        simp [hta]

/-! ## Helper lemmas: `send_email` -/

lemma send_email_of_mem (t : Nat → Bool) (rec subj evt : String)
    (reg : List DeliveryKey) (mR : Int) (hin : (rec, evt) ∈ reg) :
    send_email t rec subj evt reg mR =
      ⟨some false, reg, 0, [], [.duplicatePrevented rec evt]⟩ := by
  unfold send_email
  rw [if_pos hin]

lemma send_email_mem_registry (t : Nat → Bool) (rec subj evt : String)
    (reg : List DeliveryKey) (mR : Int) (k : DeliveryKey) :
    k ∈ (send_email t rec subj evt reg mR).registry ↔
      k ∈ reg ∨ (k = (rec, evt) ∧
        (send_email t rec subj evt reg mR).result = some true) := by
  unfold send_email
  by_cases hin : (rec, evt) ∈ reg
  · simp [hin]
  · by_cases hmr : mR ≤ 0
    · simp [hin, hmr]
    · simp only [if_neg hin, if_neg hmr]
      cases hsucc : (sendLoop t rec subj mR 1 mR.toNat).success with
      | true => simp [hsucc]
      | false => simp [hsucc]

lemma send_email_registry_cases (t : Nat → Bool) (rec subj evt : String)
    (reg : List DeliveryKey) (mR : Int) :
    (send_email t rec subj evt reg mR).registry = reg ∨
      (send_email t rec subj evt reg mR).registry = reg ++ [(rec, evt)] := by
  unfold send_email
  by_cases hin : (rec, evt) ∈ reg
  · simp [hin]
  · by_cases hmr : mR ≤ 0
    · simp [hin, hmr]
    · simp only [if_neg hin, if_neg hmr]
      cases hsucc : (sendLoop t rec subj mR 1 mR.toNat).success with
      | true => simp [hsucc]
      | false => simp [hsucc]

lemma send_email_success_iff (t : Nat → Bool) (rec subj evt : String)
    (reg : List DeliveryKey) (mR : Int) :
    (send_email t rec subj evt reg mR).result = some true ↔
      (rec, evt) ∉ reg ∧
        1 ≤ (send_email t rec subj evt reg mR).transportAttempts ∧
        t (send_email t rec subj evt reg mR).transportAttempts = true := by
  unfold send_email
  by_cases hin : (rec, evt) ∈ reg
  · simp [hin]
  · by_cases hmr : mR ≤ 0
    · simp [hin, hmr]
    · simp only [if_neg hin, if_neg hmr]
      have hiff := sendLoop_success_iff t rec subj mR mR.toNat 1
      have hidx : 1 + (sendLoop t rec subj mR 1 mR.toNat).attempts - 1
          = (sendLoop t rec subj mR 1 mR.toNat).attempts := by omega
      rw [hidx] at hiff
      simp only [Option.some.injEq]
      constructor
      · intro h
        exact ⟨hin, hiff.1 h⟩
      · intro ⟨_, h⟩
        exact hiff.2 h

lemma send_email_registry_add_iff (t : Nat → Bool) (rec subj evt : String)
    (reg : List DeliveryKey) (mR : Int) :
    (send_email t rec subj evt reg mR).registry = reg ++ [(rec, evt)] ↔
      ((rec, evt) ∉ reg ∧
        (send_email t rec subj evt reg mR).result = some true) := by
  have hne : reg ≠ reg ++ [(rec, evt)] := by
    intro h
    have := congrArg List.length h
    simp at this
  unfold send_email
  by_cases hin : (rec, evt) ∈ reg
  · simp [hin, hne.symm]
  · by_cases hmr : mR ≤ 0
    · simp [hin, hmr, hne.symm]
    · simp only [if_neg hin, if_neg hmr]
      cases hsucc : (sendLoop t rec subj mR 1 mR.toNat).success with
      | true => simp [hsucc, hin]
      | false => simp [hsucc, hne.symm, hin]

lemma sendLoop_no_detection (t : Nat → Bool) (rec subj : String) (mR : Int) :
    ∀ (r a : Nat), ∀ e ∈ (sendLoop t rec subj mR a r).logs,
      e.isDetection = false := by
  intro r
  induction r with
  | zero =>
    intro a e he
    simp [sendLoop] at he
  | succ r ih =>
    intro a e he
    cases hta : t a with
    | true =>
      rw [sendLoop, hta] at he
      simp at he
      subst he
      rfl
    | false =>
      rw [sendLoop, hta] at he
      by_cases halt : (a : Int) < mR
      · simp only [Bool.false_eq_true, if_false, if_pos halt,
          List.mem_cons] at he
        rcases he with he | he
        · subst he
          rfl
        · exact ih (a + 1) e he
      · simp only [Bool.false_eq_true, if_false, if_neg halt,
          List.mem_cons, List.not_mem_nil, or_false] at he
        rcases he with he | he <;> subst he <;> rfl

lemma send_email_no_detection (t : Nat → Bool) (rec subj evt : String)
    (reg : List DeliveryKey) (mR : Int) :
    ∀ e ∈ (send_email t rec subj evt reg mR).logs, e.isDetection = false := by
  intro e he
  unfold send_email at he
  by_cases hin : (rec, evt) ∈ reg
  · simp [hin] at he
    subst he
    rfl
  · by_cases hmr : mR ≤ 0
    · simp [hin, hmr] at he
    · simp only [if_neg hin, if_neg hmr] at he
      exact sendLoop_no_detection t rec subj mR mR.toNat 1 e he

lemma runRegistry_nil (reg : List DeliveryKey) : runRegistry [] reg = reg := rfl

lemma runRegistry_cons (c : CallSpec) (calls : List CallSpec)
    (reg : List DeliveryKey) :
    runRegistry (c :: calls) reg =
      runRegistry calls
        (send_email c.transport c.recipient c.subject c.eventType reg
          c.maxRetries).registry := rfl

lemma runRegistry_mem (calls : List CallSpec) :
    ∀ (reg : List DeliveryKey) (k : DeliveryKey),
      (k ∈ runRegistry calls reg ↔
        k ∈ reg ∨ ∃ pre c post, calls = pre ++ c :: post ∧ c.key = k ∧
          (send_email c.transport c.recipient c.subject c.eventType
            (runRegistry pre reg) c.maxRetries).result = some true) := by
  induction calls with
  | nil =>
    intro reg k
    simp [runRegistry]
  | cons c rest ih =>
    intro reg k
    rw [runRegistry_cons, ih, send_email_mem_registry]
    constructor
    · rintro ((hin | ⟨hk, hsucc⟩) | ⟨pre, c', post, heq, hk, hsucc⟩)
      · exact Or.inl hin
      · exact Or.inr ⟨[], c, rest, rfl, hk.symm, by
          rw [runRegistry_nil]
          exact hsucc⟩
      · refine Or.inr ⟨c :: pre, c', post, by rw [heq, List.cons_append], hk, ?_⟩
        rw [runRegistry_cons]
        exact hsucc
    · rintro (hin | ⟨pre, c', post, heq, hk, hsucc⟩)
      · exact Or.inl (Or.inl hin)
      · cases pre with
        | nil =>
          simp only [List.nil_append, List.cons.injEq] at heq
          obtain ⟨hc, hrest⟩ := heq
          subst hc
          refine Or.inl (Or.inr ⟨hk.symm, ?_⟩)
          rw [runRegistry_nil] at hsucc
          exact hsucc
        | cons p ps =>
          simp only [List.cons_append, List.cons.injEq] at heq
          obtain ⟨hc, hrest⟩ := heq
          subst hc
          refine Or.inr ⟨ps, c', post, hrest, hk, ?_⟩
          rw [runRegistry_cons] at hsucc
          exact hsucc

/-! ## Helper lemmas: detector control flow -/

lemma check_birthday_shape (today : Date) (templates : String → String)
    (transport : Nat → Bool) (reg : List DeliveryKey) (row : Row) (dob : Date)
    (hdob : parse_date row.dateOfBirth = some dob)
    (hd : today.day = dob.day) (hm : today.month = dob.month)
    (hemail : emailMissing row.email = false) :
    check_birthday today templates transport reg row =
      afterSend
        (.birthdayDetected (row.employeeName.getD "Employee")
          ((today.year : Int) - (dob.year : Int)))
        (send_email transport (row.email.getD "")
          (birthday_subject (row.employeeName.getD "Employee")) "birthday"
          reg 3) := by
  unfold check_birthday
  rw [hdob]
  simp [hd, hm, hemail]

lemma check_birthday_skip (today : Date) (templates : String → String)
    (transport : Nat → Bool) (reg : List DeliveryKey) (row : Row) (dob : Date)
    (hdob : parse_date row.dateOfBirth = some dob)
    (hd : today.day = dob.day) (hm : today.month = dob.month)
    (hemail : emailMissing row.email = true) :
    check_birthday today templates transport reg row =
      ⟨some false, reg, 0, [],
        [.skippedNoEmail "birthday" (row.employeeName.getD "Employee")]⟩ := by
  unfold check_birthday
  rw [hdob]
  simp [hd, hm, hemail, noEffects]

lemma check_work_anniversary_skip (today : Date)
    (templates : String → String) (transport : Nat → Bool)
    (reg : List DeliveryKey) (row : Row) (doj : Date)
    (hdoj : parse_date row.dateOfJoining = some doj)
    (hm : today.month = doj.month) (hd : today.day = doj.day)
    (hemail : emailMissing row.email = true) :
    check_work_anniversary today templates transport reg row =
      ⟨some false, reg, 0, [],
        [.skippedNoEmail "work_anniversary"
          (row.employeeName.getD "Employee")]⟩ := by
  unfold check_work_anniversary
  rw [hdoj]
  simp [hd, hm, hemail, noEffects]

lemma check_marriage_anniversary_skip (today : Date)
    (templates : String → String) (transport : Nat → Bool)
    (reg : List DeliveryKey) (row : Row) (md : Date)
    (hmd : parse_date row.marriageAnniversary = some md)
    (hd : today.day = md.day) (hm : today.month = md.month)
    (hemail : emailMissing row.email = true) :
    check_marriage_anniversary today templates transport reg row =
      ⟨some false, reg, 0, [],
        [.skippedNoEmail "marriage_anniversary"
          (row.employeeName.getD "Employee")]⟩ := by
  unfold check_marriage_anniversary
  rw [hmd]
  simp [hd, hm, hemail, noEffects]

lemma check_marriage_anniversary_unparseable (today : Date)
    (templates : String → String) (transport : Nat → Bool)
    (reg : List DeliveryKey) (row : Row)
    (hmd : parse_date row.marriageAnniversary = none) :
    check_marriage_anniversary today templates transport reg row =
      ⟨some false, reg, 0, [], []⟩ := by
  unfold check_marriage_anniversary
  rw [hmd]
  rfl

/-! ## Claim theorems -/

/-- **C1.** For every delivery request whose key `(recipientEmail, kind)` is
already in the `SentRegistry`, `send_email` returns the suppressed outcome
(Python `False`) immediately, logs it as a prevented duplicate at warning
level, makes no transport attempt, and leaves the registry unchanged; hence
after a delivery that returned `Sent` for a key, a second delivery for the
same `(email, kind)` makes no transport call. -/
theorem send_email_suppresses_duplicates
    (t : Nat → Bool) (rec subj evt : String) (reg : List DeliveryKey)
    (mR : Int) :
    ((rec, evt) ∈ reg →
      send_email t rec subj evt reg mR =
        ⟨some false, reg, 0, [], [.duplicatePrevented rec evt]⟩ ∧
        (LogEntry.duplicatePrevented rec evt).level = .warning) ∧
    (∀ (t₂ : Nat → Bool) (subj₂ : String) (mR₂ : Int),
      (send_email t rec subj evt reg mR).result = some true →
        (send_email t₂ rec subj₂ evt
            (send_email t rec subj evt reg mR).registry
            mR₂).transportAttempts = 0 ∧
        (send_email t₂ rec subj₂ evt
            (send_email t rec subj evt reg mR).registry mR₂).result
          = some false) := by
  constructor
  · intro hin
    exact ⟨send_email_of_mem t rec subj evt reg mR hin, rfl⟩
  · intro t₂ subj₂ mR₂ hsucc
    have hmem : (rec, evt) ∈ (send_email t rec subj evt reg mR).registry :=
      (send_email_mem_registry t rec subj evt reg mR (rec, evt)).2
        (Or.inr ⟨rfl, hsucc⟩)
    have h2 := send_email_of_mem t₂ rec subj₂ evt
      (send_email t rec subj evt reg mR).registry mR₂ hmem
    rw [h2]
    exact ⟨rfl, rfl⟩

/-- Witness for C1 at a concrete suppressed call and a concrete
sent-then-resent pair. -/
theorem send_email_suppresses_duplicates_witness :
    send_email (fun _ => true) "a@x.com" "Hi" "birthday"
        [("a@x.com", "birthday")] 3 =
      ⟨some false, [("a@x.com", "birthday")], 0, [],
        [.duplicatePrevented "a@x.com" "birthday"]⟩ ∧
    (send_email (fun _ => false) "a@x.com" "Hi2" "birthday"
        (send_email (fun _ => true) "a@x.com" "Hi" "birthday" [] 3).registry
        3).transportAttempts = 0 := by
  constructor
  · exact ((send_email_suppresses_duplicates (fun _ => true) "a@x.com" "Hi"
      "birthday" [("a@x.com", "birthday")] 3).1 (List.mem_singleton.2 rfl)).1
  · exact ((send_email_suppresses_duplicates (fun _ => true) "a@x.com" "Hi"
      "birthday" [] 3).2 (fun _ => false) "Hi2" 3 (by decide)).1

/-- **C2.** For every `maxAttempts ≥ 1` and `1 ≤ N ≤ maxAttempts`, a
transport that fails on attempts `1..N-1` and succeeds on attempt `N` makes
`send_email` return `Sent` (`True`), with exactly `N` transport calls,
exactly `N − 1` backoff waits of the fixed 2-time-unit interval, and the key
appended to the registry. -/
theorem send_email_retry_success
    (t : Nat → Bool) (rec subj evt : String) (reg : List DeliveryKey)
    (mR : Int) (N : Nat) (hN1 : 1 ≤ N) (hNm : (N : Int) ≤ mR)
    (hnotin : (rec, evt) ∉ reg)
    (hf : ∀ i, 1 ≤ i → i < N → t i = false) (hs : t N = true) :
    send_email t rec subj evt reg mR =
      ⟨some true, reg ++ [(rec, evt)], N, List.replicate (N - 1) 2,
        (List.range' 1 (N - 1)).map (fun i => .attemptFailed rec i mR) ++
          [.sendSuccess rec subj]⟩ := by
  have hmr : ¬ (mR ≤ 0) := by omega
  have hloop := sendLoop_firstSuccess t rec subj mR N hNm hf hs mR.toNat 1
    (by omega) hN1 (by omega)
  unfold send_email
  rw [if_neg hnotin, if_neg hmr, hloop]
  have hN : N - 1 + 1 = N := by omega
  simp [hN]

/-- Witness for C2: max 3 attempts, failure then success on attempt 2. -/
theorem send_email_retry_success_witness :
    send_email (fun i => i == 2) "a@x.com" "Hi" "birthday" [] 3 =
      ⟨some true, [("a@x.com", "birthday")], 2, [2],
        [.attemptFailed "a@x.com" 1 3, .sendSuccess "a@x.com" "Hi"]⟩ := by
  have h := send_email_retry_success (fun i => i == 2) "a@x.com" "Hi"
    "birthday" [] 3 2 (by decide) (by decide) (by decide)
    (by decide) (by decide)
  simpa using h

/-- **C3.** For every `maxAttempts ≥ 1`, a transport failing every attempt
makes `send_email` return `Failed` (`False`), with exactly `maxAttempts`
transport calls, the registry unchanged, and an error-level log entry
written. -/
theorem send_email_retry_exhaustion
    (t : Nat → Bool) (rec subj evt : String) (reg : List DeliveryKey)
    (mR : Int) (h1 : 1 ≤ mR) (hnotin : (rec, evt) ∉ reg)
    (hf : ∀ i : Nat, 1 ≤ i → (i : Int) ≤ mR → t i = false) :
    send_email t rec subj evt reg mR =
      ⟨some false, reg, mR.toNat, List.replicate (mR.toNat - 1) 2,
        (List.range' 1 mR.toNat).map (fun i => .attemptFailed rec i mR) ++
          [.sendExhausted rec mR]⟩ ∧
    (send_email t rec subj evt reg mR).logs.any
        (fun e => e.level == .error) = true := by
  have hmr : ¬ (mR ≤ 0) := by omega
  have hloop := sendLoop_allFail t rec subj mR hf mR.toNat 1 (by omega)
    (by omega) (by omega)
  have heq : send_email t rec subj evt reg mR =
      ⟨some false, reg, mR.toNat, List.replicate (mR.toNat - 1) 2,
        (List.range' 1 mR.toNat).map (fun i => .attemptFailed rec i mR) ++
          [.sendExhausted rec mR]⟩ := by
    unfold send_email
    rw [if_neg hnotin, if_neg hmr, hloop]
    simp
  refine ⟨heq, ?_⟩
  rw [heq]
  simp [List.any_append, LogEntry.level]

/-- Witness for C3: three attempts, all failing. -/
theorem send_email_retry_exhaustion_witness :
    send_email (fun _ => false) "a@x.com" "Hi" "birthday" [] 3 =
      ⟨some false, [], 3, [2, 2],
        [.attemptFailed "a@x.com" 1 3, .attemptFailed "a@x.com" 2 3,
          .attemptFailed "a@x.com" 3 3, .sendExhausted "a@x.com" 3]⟩ := by
  have h := (send_email_retry_exhaustion (fun _ => false) "a@x.com" "Hi"
    "birthday" [] 3 (by decide) (by decide) (fun i _ _ => rfl)).1
  simpa using h

/-- **C9.** When `send_email` is called with `max_retries ≤ 0` and the key is
not already in the registry, the attempt loop runs zero iterations and the
function returns Python `None`: neither `Sent` (`True`) nor `Failed`
(`False`), with no transport attempt, no sleep, no log and no registry
change. -/
theorem send_email_nonpositive_retries_none
    (t : Nat → Bool) (rec subj evt : String) (reg : List DeliveryKey)
    (mR : Int) (hnotin : (rec, evt) ∉ reg) (hmr : mR ≤ 0) :
    send_email t rec subj evt reg mR = ⟨none, reg, 0, [], []⟩ ∧
    (∀ b : Bool, (send_email t rec subj evt reg mR).result ≠ some b) := by
  have heq : send_email t rec subj evt reg mR = ⟨none, reg, 0, [], []⟩ := by
    unfold send_email
    rw [if_neg hnotin, if_pos hmr]
  refine ⟨heq, ?_⟩
  intro b
  rw [heq]
  simp

/-- Witness for C9 at `max_retries = 0`. -/
theorem send_email_nonpositive_retries_none_witness :
    send_email (fun _ => true) "a@x.com" "Hi" "birthday" [] 0 =
      ⟨none, [], 0, [], []⟩ ∧
    (send_email (fun _ => true) "a@x.com" "Hi" "birthday" [] 0).result
      ≠ some true := by
  constructor
  · exact (send_email_nonpositive_retries_none (fun _ => true) "a@x.com" "Hi"
      "birthday" [] 0 (by decide) (by decide)).1
  · exact (send_email_nonpositive_retries_none (fun _ => true) "a@x.com" "Hi"
      "birthday" [] 0 (by decide) (by decide)).2 true

/-- **C10.** Invariant kept by every delivery: the registry only grows,
`send_email` mutates it only by appending its own key
`(recipientEmail, event_type)`, and it appends that key exactly when a
transport attempt of this call succeeds; hence, along any sequence of
deliveries starting from the empty registry of a fresh run, a key is in the
registry iff some earlier call for that key ended with a successful
transport send. -/
theorem send_email_registry_growth
    (t : Nat → Bool) (rec subj evt : String) (reg : List DeliveryKey)
    (mR : Int) :
    (∀ k, k ∈ reg → k ∈ (send_email t rec subj evt reg mR).registry) ∧
    ((send_email t rec subj evt reg mR).registry = reg ∨
      (send_email t rec subj evt reg mR).registry = reg ++ [(rec, evt)]) ∧
    ((send_email t rec subj evt reg mR).registry = reg ++ [(rec, evt)] ↔
      ((rec, evt) ∉ reg ∧
        1 ≤ (send_email t rec subj evt reg mR).transportAttempts ∧
        t (send_email t rec subj evt reg mR).transportAttempts = true)) ∧
    (∀ (calls : List CallSpec) (k : DeliveryKey),
      k ∈ runRegistry calls [] ↔
        ∃ pre c post, calls = pre ++ c :: post ∧ c.key = k ∧
          (send_email c.transport c.recipient c.subject c.eventType
            (runRegistry pre []) c.maxRetries).result = some true) := by
  refine ⟨?_, ?_, ?_, ?_⟩
  · intro k hk
    exact (send_email_mem_registry t rec subj evt reg mR k).2 (Or.inl hk)
  · exact send_email_registry_cases t rec subj evt reg mR
  · rw [send_email_registry_add_iff t rec subj evt reg mR,
      send_email_success_iff t rec subj evt reg mR]
    constructor
    · intro ⟨h1, _, h2⟩
      exact ⟨h1, h2⟩
    · intro ⟨h1, h2⟩
      exact ⟨h1, h1, h2⟩
  · intro calls k
    rw [runRegistry_mem calls [] k]
    simp

/-- Witness for C10 at a one-call run whose transport succeeds. -/
theorem send_email_registry_growth_witness :
    ("a@x.com", "birthday") ∈
        runRegistry [⟨fun _ => true, "a@x.com", "Hi", "birthday", 3⟩] [] ∧
    (send_email (fun _ => true) "a@x.com" "Hi" "birthday" [] 3).registry
      = [] ++ [("a@x.com", "birthday")] := by
  constructor
  · exact ((send_email_registry_growth (fun _ => true) "a@x.com" "Hi"
      "birthday" [] 3).2.2.2 [⟨fun _ => true, "a@x.com", "Hi", "birthday", 3⟩]
      ("a@x.com", "birthday")).2
      ⟨[], ⟨fun _ => true, "a@x.com", "Hi", "birthday", 3⟩, [], rfl, rfl,
        by decide⟩
  · exact ((send_email_registry_growth (fun _ => true) "a@x.com" "Hi"
      "birthday" [] 3).2.2.1).2 ⟨by decide, by decide, by decide⟩

/-- **C6.** The Date Resolver tries textual input against exactly the four
formats day-month-year with hyphens, day-month-year with slashes,
year-month-day with hyphens, day-month-year with dots, in that fixed order
with the first successful parse winning; consequently every valid calendar
date's four textual renderings in these formats all resolve to that same
canonical date, and absent (NaN) input resolves to `None`. -/
theorem parse_date_formats_roundtrip (y m d : Nat)
    (hv : validDate y m d = true) :
    parse_date (.strv ⟨fmtDMY '-' ⟨y, m, d⟩⟩) = some ⟨y, m, d⟩ ∧
    parse_date (.strv ⟨fmtDMY '/' ⟨y, m, d⟩⟩) = some ⟨y, m, d⟩ ∧
    parse_date (.strv ⟨fmtYMD ⟨y, m, d⟩⟩) = some ⟨y, m, d⟩ ∧
    parse_date (.strv ⟨fmtDMY '.' ⟨y, m, d⟩⟩) = some ⟨y, m, d⟩ ∧
    parse_date .na = none ∧
    (∀ (s : String) (dt : Date),
      parseWith '-' .dmy s.data = some dt → parse_date (.strv s) = some dt) ∧
    (∀ s : String,
      parseWith '-' .dmy s.data = none → parseWith '/' .dmy s.data = none →
        parseWith '-' .ymd s.data = none →
        parse_date (.strv s) = parseWith '.' .dmy s.data) := by
  refine ⟨?_, ?_, ?_, ?_, rfl, ?_, ?_⟩
  · have h1 := parseWith_fmtDMY '-' (by decide) y m d hv
    simp [parse_date, h1, Option.orElse]
  · have h1 : parseWith '-' .dmy (fmtDMY '/' ⟨y, m, d⟩) = none :=
      parseWith_of_noSep _ _ _ (noSep_fmtDMY '/' '-' _ (by decide) (by decide))
    have h2 := parseWith_fmtDMY '/' (by decide) y m d hv
    simp [parse_date, h1, h2, Option.orElse]
  · have h1 := parseWith_dmy_fmtYMD ⟨y, m, d⟩
    have h2 : parseWith '/' .dmy (fmtYMD ⟨y, m, d⟩) = none :=
      parseWith_of_noSep _ _ _ (noSep_fmtYMD '/' _ (by decide) (by decide))
    have h3 := parseWith_fmtYMD y m d hv
    simp [parse_date, h1, h2, h3, Option.orElse]
  · have h1 : parseWith '-' .dmy (fmtDMY '.' ⟨y, m, d⟩) = none :=
      parseWith_of_noSep _ _ _ (noSep_fmtDMY '.' '-' _ (by decide) (by decide))
    have h2 : parseWith '/' .dmy (fmtDMY '.' ⟨y, m, d⟩) = none :=
      parseWith_of_noSep _ _ _ (noSep_fmtDMY '.' '/' _ (by decide) (by decide))
    have h3 : parseWith '-' .ymd (fmtDMY '.' ⟨y, m, d⟩) = none :=
      parseWith_of_noSep _ _ _ (noSep_fmtDMY '.' '-' _ (by decide) (by decide))
    have h4 := parseWith_fmtDMY '.' (by decide) y m d hv
    simp [parse_date, h1, h2, h3, h4, Option.orElse]
  · intro s dt h
    simp [parse_date, h, Option.orElse]
  · intro s h1 h2 h3
    simp [parse_date, h1, h2, h3, Option.orElse]

/-- Witness for C6 at the date 1990-03-15. -/
theorem parse_date_formats_roundtrip_witness :
    parse_date (.strv ⟨fmtDMY '-' ⟨1990, 3, 15⟩⟩) = some ⟨1990, 3, 15⟩ ∧
    parse_date (.strv ⟨fmtYMD ⟨1990, 3, 15⟩⟩) = some ⟨1990, 3, 15⟩ ∧
    parse_date .na = none := by
  have h := parse_date_formats_roundtrip 1990 3 15 (by decide)
  exact ⟨h.1, h.2.2.1, h.2.2.2.2.1⟩

/-- **C4.** For every employee whose `Date of Birth` resolves to a date whose
month and day equal today's (the birth year being ignored in matching) and
whose email is present, `check_birthday` produces exactly one detection
(EventMatch) log entry, carrying `elapsedYears = today.year − dob.year`; in
particular for name "Asha", DOB "15-03-1990" and today 2024-03-15 the
elapsed-years value is 34 and the subject line contains "Asha". -/
theorem check_birthday_event_match
    (today : Date) (templates : String → String) (transport : Nat → Bool)
    (reg : List DeliveryKey) (row : Row) (dob : Date)
    (hdob : parse_date row.dateOfBirth = some dob)
    (hd : today.day = dob.day) (hm : today.month = dob.month)
    (hemail : emailMissing row.email = false) :
    (check_birthday today templates transport reg row).logs.countP
        LogEntry.isDetection = 1 ∧
    (check_birthday today templates transport reg row).logs.head? =
      some (.birthdayDetected (row.employeeName.getD "Employee")
        ((today.year : Int) - (dob.year : Int))) ∧
    (check_birthday ⟨2024, 3, 15⟩ templates transport reg
        ⟨some "Asha", some "asha@x.com", .strv "15-03-1990", .na,
          .na⟩).logs.head? = some (.birthdayDetected "Asha" 34) ∧
    strContains (birthday_subject "Asha") "Asha" = true := by
  have hshape := check_birthday_shape today templates transport reg row dob
    hdob hd hm hemail
  have hasha := check_birthday_shape ⟨2024, 3, 15⟩ templates transport reg
    ⟨some "Asha", some "asha@x.com", .strv "15-03-1990", .na, .na⟩
    ⟨1990, 3, 15⟩ (by decide) rfl rfl (by decide)
  refine ⟨?_, ?_, ?_, by decide⟩
  · rw [hshape]
    unfold afterSend
    rw [List.countP_cons]
    have hz : (send_email transport (row.email.getD "")
        (birthday_subject (row.employeeName.getD "Employee")) "birthday"
        reg 3).logs.countP LogEntry.isDetection = 0 := by
      rw [List.countP_eq_zero]
      intro e he
      simp [send_email_no_detection transport (row.email.getD "")
        (birthday_subject (row.employeeName.getD "Employee")) "birthday"
        reg 3 e he]
    rw [hz]
    rfl
  · rw [hshape]
    rfl
  · rw [hasha]
    norm_num [afterSend]

/-- Witness for C4 at the Asha scenario. -/
theorem check_birthday_event_match_witness :
    (check_birthday ⟨2024, 3, 15⟩ (fun _ => "T") (fun _ => true) []
        ⟨some "Asha", some "asha@x.com", .strv "15-03-1990", .na,
          .na⟩).logs.countP LogEntry.isDetection = 1 ∧
    strContains (birthday_subject "Asha") "Asha" = true := by
  have h := check_birthday_event_match ⟨2024, 3, 15⟩ (fun _ => "T")
    (fun _ => true) [] ⟨some "Asha", some "asha@x.com", .strv "15-03-1990",
      .na, .na⟩ ⟨1990, 3, 15⟩ (by decide) rfl rfl (by decide)
  exact ⟨h.1, h.2.2.2⟩

/-- **C5.** For all three event kinds, when the event's date matches today
but the recipient email is absent or blank, the detector returns `False`
(NoMatch) with a warning-level log entry naming the employee and the event
kind, and no transport call is attempted (zero attempts, registry
untouched). -/
theorem checks_skip_missing_email
    (today : Date) (templates : String → String) (transport : Nat → Bool)
    (reg : List DeliveryKey) (row : Row)
    (hemail : emailMissing row.email = true) :
    (∀ dob, parse_date row.dateOfBirth = some dob → today.day = dob.day →
      today.month = dob.month →
      check_birthday today templates transport reg row =
        ⟨some false, reg, 0, [],
          [.skippedNoEmail "birthday" (row.employeeName.getD "Employee")]⟩) ∧
    (∀ doj, parse_date row.dateOfJoining = some doj →
      today.month = doj.month → today.day = doj.day →
      check_work_anniversary today templates transport reg row =
        ⟨some false, reg, 0, [],
          [.skippedNoEmail "work_anniversary"
            (row.employeeName.getD "Employee")]⟩) ∧
    (∀ md, parse_date row.marriageAnniversary = some md →
      today.day = md.day → today.month = md.month →
      check_marriage_anniversary today templates transport reg row =
        ⟨some false, reg, 0, [],
          [.skippedNoEmail "marriage_anniversary"
            (row.employeeName.getD "Employee")]⟩) ∧
    (∀ kind nm : String, (LogEntry.skippedNoEmail kind nm).level
      = .warning) := by
  refine ⟨?_, ?_, ?_, fun _ _ => rfl⟩
  · intro dob h1 h2 h3
    exact check_birthday_skip today templates transport reg row dob h1 h2 h3
      hemail
  · intro doj h1 h2 h3
    exact check_work_anniversary_skip today templates transport reg row doj
      h1 h2 h3 hemail
  · intro md h1 h2 h3
    exact check_marriage_anniversary_skip today templates transport reg row
      md h1 h2 h3 hemail

/-- Witness for C5: an employee with matching dates in all three fields and
no email address. -/
theorem checks_skip_missing_email_witness :
    check_birthday ⟨2024, 3, 15⟩ (fun _ => "T") (fun _ => true) []
        ⟨some "Ben", none, .strv "15-03-1990", .strv "15-03-2019",
          .strv "15-03-2001"⟩ =
      ⟨some false, [], 0, [], [.skippedNoEmail "birthday" "Ben"]⟩ ∧
    check_work_anniversary ⟨2024, 3, 15⟩ (fun _ => "T") (fun _ => true) []
        ⟨some "Ben", none, .strv "15-03-1990", .strv "15-03-2019",
          .strv "15-03-2001"⟩ =
      ⟨some false, [], 0, [], [.skippedNoEmail "work_anniversary" "Ben"]⟩ ∧
    check_marriage_anniversary ⟨2024, 3, 15⟩ (fun _ => "T") (fun _ => true)
        [] ⟨some "Ben", none, .strv "15-03-1990", .strv "15-03-2019",
          .strv "15-03-2001"⟩ =
      ⟨some false, [], 0, [],
        [.skippedNoEmail "marriage_anniversary" "Ben"]⟩ := by
  have h := checks_skip_missing_email ⟨2024, 3, 15⟩ (fun _ => "T")
    (fun _ => true) [] ⟨some "Ben", none, .strv "15-03-1990",
      .strv "15-03-2019", .strv "15-03-2001"⟩ rfl
  exact ⟨h.1 ⟨1990, 3, 15⟩ (by decide) rfl rfl,
    h.2.1 ⟨2019, 3, 15⟩ (by decide) rfl rfl,
    h.2.2.1 ⟨2001, 3, 15⟩ (by decide) rfl rfl⟩

/-- **C7 counterexample.** At the concrete Marriage Anniversary value
"not-a-date", the check returns `False` with an *empty* log — in
particular it is false that exactly one warning is logged, contradicting
the claim's "a warning containing the raw value is logged / exactly one
warning logged". -/
theorem unparseable_warning_counterexample :
    (check_marriage_anniversary ⟨2024, 3, 15⟩ (fun _ => "T") (fun _ => true)
        [] ⟨some "Asha", some "asha@x.com", .na, .na,
          .strv "not-a-date"⟩).logs = [] ∧
    ¬ ((check_marriage_anniversary ⟨2024, 3, 15⟩ (fun _ => "T")
        (fun _ => true) [] ⟨some "Asha", some "asha@x.com", .na, .na,
          .strv "not-a-date"⟩).logs.countP (fun e => e.level == .warning)
        = 1) := by
  constructor
  · decide
  · decide

/-- **C7 (amended).** For every non-absent textual value matching none of
the four supported formats, the Date Resolver returns `None` (Unparseable)
— with no warning logged, since the resolver's warning branch fires only on
unexpected exceptions and the per-format `ValueError`s are swallowed — and a
Marriage Anniversary field holding such a value yields NoMatch (`False`)
with an empty log and no delivery attempt. -/
theorem parse_unmatched_silent_nomatch (s : String)
    (h1 : parseWith '-' .dmy s.data = none)
    (h2 : parseWith '/' .dmy s.data = none)
    (h3 : parseWith '-' .ymd s.data = none)
    (h4 : parseWith '.' .dmy s.data = none) :
    parse_date (.strv s) = none ∧
    (∀ (today : Date) (templates : String → String) (transport : Nat → Bool)
        (reg : List DeliveryKey) (row : Row),
      row.marriageAnniversary = .strv s →
      check_marriage_anniversary today templates transport reg row =
        ⟨some false, reg, 0, [], []⟩) := by
  have hp : parse_date (.strv s) = none := by
    simp [parse_date, h1, h2, h3, h4, Option.orElse]
  refine ⟨hp, ?_⟩
  intro today templates transport reg row hrow
  exact check_marriage_anniversary_unparseable today templates transport reg
    row (by rw [hrow]; exact hp)

/-- Witness for the amended C7 at the value "not-a-date". -/
theorem parse_unmatched_silent_nomatch_witness :
    parse_date (.strv "not-a-date") = none ∧
    check_marriage_anniversary ⟨2024, 3, 15⟩ (fun _ => "T") (fun _ => true)
        [] ⟨some "Asha", some "asha@x.com", .na, .na, .strv "not-a-date"⟩ =
      ⟨some false, [], 0, [], []⟩ := by
  have h := parse_unmatched_silent_nomatch "not-a-date" (by decide)
    (by decide) (by decide) (by decide)
  exact ⟨h.1, h.2 ⟨2024, 3, 15⟩ (fun _ => "T") (fun _ => true) []
    ⟨some "Asha", some "asha@x.com", .na, .na, .strv "not-a-date"⟩ rfl⟩

/-- **C8.** The run gate opens iff the current hour and minute exactly equal
the configured target hour and minute (no tolerance window); on any other
minute — in particular one minute before or after the hard-coded 16:49
target — the run is a no-op that logs the not-scheduled message and never
touches the employee data source. -/
theorem run_gate_exact (th tm h m : Nat) (today : Date)
    (templates : String → String) (transports : Nat → String → Nat → Bool)
    (rows : List Row) :
    ((run th tm h m today templates transports rows).dataSourceTouched = true
      ↔ (h = th ∧ m = tm)) ∧
    (h ≠ th ∨ m ≠ tm →
      run th tm h m today templates transports rows =
        ⟨false, none, [], [.notScheduledTime h m th tm]⟩) ∧
    (run target_hour target_minute 16 48 today templates transports
        rows).dataSourceTouched = false ∧
    (run target_hour target_minute 16 50 today templates transports
        rows).dataSourceTouched = false := by
  refine ⟨?_, ?_, ?_, ?_⟩
  · unfold run
    by_cases hc : h ≠ th ∨ m ≠ tm
    · rw [if_pos hc]
      simp only [Bool.false_eq_true, false_iff]
      tauto
    · rw [if_neg hc]
      push_neg at hc
      simp [hc.1, hc.2]
  · intro hc
    unfold run
    rw [if_pos hc]
  · unfold run
    rw [if_pos (Or.inr (by decide))]
  · unfold run
    rw [if_pos (Or.inr (by decide))]

/-- Witness for C8 at the target 16:49 and the neighbouring minutes. -/
theorem run_gate_exact_witness :
    (run 16 49 16 49 ⟨2024, 3, 15⟩ (fun _ => "T") (fun _ _ _ => true)
        []).dataSourceTouched = true ∧
    run 16 49 16 48 ⟨2024, 3, 15⟩ (fun _ => "T") (fun _ _ _ => true) [] =
      ⟨false, none, [], [.notScheduledTime 16 48 16 49]⟩ ∧
    (run target_hour target_minute 16 50 ⟨2024, 3, 15⟩ (fun _ => "T")
        (fun _ _ _ => true) []).dataSourceTouched = false := by
  refine ⟨?_, ?_, ?_⟩
  · exact (run_gate_exact 16 49 16 49 ⟨2024, 3, 15⟩ (fun _ => "T")
      (fun _ _ _ => true) []).1.2 ⟨rfl, rfl⟩
  · exact (run_gate_exact 16 49 16 48 ⟨2024, 3, 15⟩ (fun _ => "T")
      (fun _ _ _ => true) []).2.1 (Or.inr (by decide))
  · exact (run_gate_exact 16 49 16 50 ⟨2024, 3, 15⟩ (fun _ => "T")
      (fun _ _ _ => true) []).2.2.2
